import Mathlib

/-!
Shallow embedding of the `Deli_autoSignUp` repository (files `scheduler.py`
and `send_email.py`) and proofs about its scheduling behaviour.

Modelling conventions:
* An instant (`datetime.datetime`) is an integer number of seconds counted
  from an arbitrary epoch that falls on a local midnight; a calendar date
  (`datetime.date`) is an integer day number.  `dateOf`, `hourOf`, `minuteOf`
  recover the fields Python would report, using Euclidean division so that
  the second-of-day is always in `[0, 86400)`, exactly as Python's
  `datetime` arithmetic behaves.
* `random.randint(-jitter_minutes * 60, jitter_minutes * 60)` is modelled by
  oracle inputs: `jitters : Nat → Int` gives the value drawn for the i-th
  base time of the current call, and `rolloverJitter : Int` the value drawn
  in the next-day branch.  The range constraint becomes a hypothesis where a
  claim needs it.
* Fallible code is embedded with `Option` / `Except`: `schedule_times[0]` on
  an empty list (an `IndexError` in Python) yields `none`; launching and
  talking to the child process / SMTP server are oracle `Except` values.
-/

namespace Deli

/-- Seconds in a day. -/
def secondsPerDay : Int := 86400

/-- The calendar date (day number) of an instant, i.e. `t.date()`. -/
def dateOf (t : Int) : Int := t / 86400

/-- The second-of-day of an instant, always in `[0, 86400)`. -/
def secOfDay (t : Int) : Int := t % 86400

/-- The hour field of an instant, i.e. `t.hour`. -/
def hourOf (t : Int) : Int := (t % 86400) / 3600

/-- The minute field of an instant, i.e. `t.minute`. -/
def minuteOf (t : Int) : Int := ((t % 86400) % 3600) / 60

/-- `datetime.datetime.combine(d, datetime.time(h, m))` as an instant. -/
def combine (d h m : Int) : Int := d * 86400 + h * 3600 + m * 60

/-- A base time `(hour, minute)` is a valid time of day. -/
def ValidTime (h m : Int) : Prop := 0 ≤ h ∧ h < 24 ∧ 0 ≤ m ∧ m < 60

instance (h m : Int) : Decidable (ValidTime h m) := by
  unfold ValidTime; infer_instance

/-- Today's jittered instants built by the loop in `get_next_schedule_time`:
for the i-th base time `(hour, minute)` of `schedule_times`, the instant
`datetime.combine(today, time(hour, minute)) + timedelta(seconds = jitters i)`. -/
def todayJittered (now : Int) (schedule_times : List (Int × Int))
    (jitters : Nat → Int) : List Int :=
  schedule_times.enum.map (fun p => combine (dateOf now) p.2.1 p.2.2 + jitters p.1)

/-- `future_times = [t for t in scheduled_times if t > now]`. -/
def futureTimes (now : Int) (schedule_times : List (Int × Int))
    (jitters : Nat → Int) : List Int :=
  (todayJittered now schedule_times jitters).filter (fun t => now < t)

/-- `get_next_schedule_time(now, schedule_times, jitter_minutes)` from
`scheduler.py` (lines 41-65), with the two random draws passed in as the
oracles `jitters` and `rolloverJitter`.  Returns `none` exactly where Python
would raise `IndexError` (`schedule_times[0]` on an empty schedule). -/
def get_next_schedule_time (now : Int) (schedule_times : List (Int × Int))
    (jitters : Nat → Int) (rolloverJitter : Int) : Option Int :=
  match (futureTimes now schedule_times jitters).min? with
  | some m => some m
  | none =>
    match schedule_times with
    | [] => none
    | (h0, m0) :: _ => some (combine (dateOf now + 1) h0 m0 + rolloverJitter)

/-- `schedule_key = (target.date(), target.hour, target.minute // 30)`
(`scheduler.py` line 133). -/
def schedule_key (t : Int) : Int × Int × Int :=
  (dateOf t, hourOf t, minuteOf t / 30)

/-- The fixed base schedule of `main`: `SCHEDULE_TIMES = [(9, 30), (14, 0), (19, 0)]`. -/
def SCHEDULE_TIMES : List (Int × Int) := [(9, 30), (14, 0), (19, 0)]

/-- The fixed jitter bound of `main`: `JITTER_MINUTES = 15`, i.e. the random
draws lie in `[-900, 900]` seconds. -/
def JITTER_MINUTES : Int := 15

/-- The target instant the loop body computes via `get_next_schedule_time`.
With the fixed non-empty `SCHEDULE_TIMES` the `Option` is always `some`
(`get_next_eq_nextTarget` below), so `getD` merely peels it. -/
def nextTarget (now : Int) (jitters : Nat → Int) (rolloverJitter : Int) : Int :=
  (get_next_schedule_time now SCHEDULE_TIMES jitters rolloverJitter).getD 0

/-- One record emitted to the `scheduler` logger, tagged with its level. -/
inductive LogRec where
  | info (msg : String)
  | warning (msg : String)
  | error (msg : String)
  | exception (msg : String)
deriving DecidableEq

/-- The completed child process as `subprocess.run` reports it. -/
structure ChildProc where
  returncode : Int
  stdout : String
  stderr : String
deriving DecidableEq

/-- `run_deli_signup(script_path, logger)` from `scheduler.py` (lines 68-82).
The `subprocess.run` call is the oracle `outcome`: `Except.error e` stands
for the Python call raising (executable missing, OS refusal), `Except.ok p`
for a completed child.  Returns the Python return value paired with the log
records written. -/
def run_deli_signup (script_path : String) (outcome : Except String ChildProc) :
    Int × List LogRec :=
  let launchLog := [LogRec.info ("launch " ++ script_path)]
  match outcome with
  | Except.ok proc =>
      (proc.returncode,
        launchLog ++ [LogRec.info "child exited"]
          ++ (if proc.stdout ≠ "" then [LogRec.info proc.stdout] else [])
          ++ (if proc.stderr ≠ "" then [LogRec.warning proc.stderr] else []))
  | Except.error e => (-1, launchLog ++ [LogRec.exception ("launch failed " ++ e)])

/-- The mutable state owned by `main`'s loop: `today_executed` (a set of
schedule keys, modelled as the list of keys added so far) and `current_day`. -/
structure LoopState where
  today_executed : List (Int × Int × Int)
  current_day : Int
deriving DecidableEq

/-- The new-day check at the top of the loop (`scheduler.py` lines 112-116):
`if now.date() != current_day: today_executed.clear(); current_day = now.date()`. -/
def resetIfNewDay (st : LoopState) (today : Int) : LoopState :=
  if today ≠ st.current_day then { today_executed := [], current_day := today }
  else st

/-- The oracle inputs consumed by one iteration of the main loop: the wall
clock sampled at the top of the iteration, the random jitter draws of its
`get_next_schedule_time` call, and the child-process outcome in case the
iteration dispatches. -/
structure IterIn where
  now : Int
  jitters : Nat → Int
  rolloverJitter : Int
  child : Except String ChildProc

/-- Observable events of one loop iteration: the computed next-fire instant,
the wait until it, a warning-level dedup skip, or a dispatch of the child. -/
inductive Ev where
  | computeNext (target : Int)
  | waitedUntil (target : Int)
  | warnSkip (key : Int × Int × Int)
  | dispatch (key : Int × Int × Int) (rc : Int)
deriving DecidableEq

/-- Result of one loop iteration: the successor state, the events, the log
records, and `some rc` when the child was dispatched (the value `--once`
mode would return). -/
structure IterOut where
  state : LoopState
  events : List Ev
  logs : List LogRec
  dispatched : Option Int

/-- One iteration of `while True` in `main` (`scheduler.py` lines 108-151):
new-day check, `get_next_schedule_time`, wait until the target, the
`schedule_key` dedup check (skip with a warning if already executed),
otherwise `run_deli_signup` and `today_executed.add(schedule_key)`. -/
def loopIter (st : LoopState) (inp : IterIn) : IterOut :=
  let st1 := resetIfNewDay st (dateOf inp.now)
  let target := nextTarget inp.now inp.jitters inp.rolloverJitter
  let key := schedule_key target
  if key ∈ st1.today_executed then
    { state := st1,
      events := [Ev.computeNext target, Ev.waitedUntil target, Ev.warnSkip key],
      logs := [LogRec.warning "skip already executed"],
      dispatched := none }
  else
    let r := run_deli_signup "deliSignup.py" inp.child
    { state := { today_executed := key :: st1.today_executed,
                 current_day := st1.current_day },
      events := [Ev.computeNext target, Ev.waitedUntil target, Ev.dispatch key r.1],
      logs := r.2,
      dispatched := some r.1 }

/-- The main loop run on a finite prefix of iteration inputs (the fuel is
the length of `iters`; the Python loop is infinite in daemon mode).  In
`--once` mode the loop returns the child's code right after the first
dispatch; a dedup skip does not terminate `--once` mode (the Python
`continue` precedes the `args.once` check).  Returns the exit value (if
any), all events, and the final state. -/
def runLoop (st : LoopState) (once : Bool) :
    List IterIn → Option Int × List Ev × LoopState
  | [] => (none, [], st)
  | i :: rest =>
    let out := loopIter st i
    match once, out.dispatched with
    | true, some rc => (some rc, out.events, out.state)
    | _, _ =>
      let r := runLoop out.state once rest
      (r.1, out.events ++ r.2.1, r.2.2)

/-- `main` from `scheduler.py` (lines 85-151): after setup it checks
`os.path.isfile(deli_path)` (the oracle `deliExists`) and returns `2`
without entering the loop when the target executable is missing; otherwise
it runs the loop from an empty executed set with `current_day` set to the
start date. -/
def mainModel (deliExists : Bool) (once : Bool) (startDay : Int)
    (iters : List IterIn) : Option Int × List Ev × LoopState :=
  if deliExists then
    runLoop { today_executed := [], current_day := startDay } once iters
  else
    (some 2, [], { today_executed := [], current_day := startDay })

/-- Concrete loop input: iteration starting at `23:00` of day `0` with zero
jitter draws and a clean child.  All of day 0's jittered instants are past,
so the computed target is day 1's `09:30` (key `(1, 9, 1)`). -/
def iterEvening : IterIn :=
  { now := 82800, jitters := fun _ => 0, rolloverJitter := 0,
    child := Except.ok { returncode := 0, stdout := "", stderr := "" } }

/-- Concrete loop input: iteration starting at `09:30:30` of day `1`, where
the jitter draw for the `09:30` base time is `+120` seconds, so the computed
target is day 1's `09:32` — again key `(1, 9, 1)`. -/
def iterNextMorning : IterIn :=
  { now := 120630, jitters := fun i => if i = 0 then 120 else 0,
    rolloverJitter := 0,
    child := Except.ok { returncode := 0, stdout := "", stderr := "" } }

/-- Concrete loop input: iteration starting at `08:00` of day `0` whose
child fails to launch (the `subprocess.run` call raises). -/
def iterFailing : IterIn :=
  { now := 28800, jitters := fun _ => 0, rolloverJitter := 0,
    child := Except.error "no such file" }

/-- The loop state right after startup on day `0`. -/
def startState : LoopState := { today_executed := [], current_day := 0 }

/-- All parameters of `send_email` in `send_email.py` apart from the two
SMTP oracles. -/
structure EmailInput where
  subject : String
  content : String
  sender_email : String
  sender_password : String
  receiver_email : String
  smtp_server : String
  smtp_port : Int

/-- The five fallible SMTP interactions performed by `send_email`, as
oracles: constructor/connect, `starttls`, `login`, `sendmail`, `quit`. -/
structure SmtpTransport where
  connect : Except String Unit
  starttls : Except String Unit
  login : Except String Unit
  sendmail : Except String Unit
  quit : Except String Unit

/-- The body of the `try` block of `send_email`: the five SMTP calls in
sequence, each aborting the block when it raises. -/
def smtpSession (tr : SmtpTransport) : Except String Unit :=
  tr.connect.bind fun _ =>
    tr.starttls.bind fun _ =>
      tr.login.bind fun _ =>
        tr.sendmail.bind fun _ => tr.quit

/-- `send_email` from `send_email.py` (lines 6-39): builds the message,
runs the SMTP session inside `try`, returns `True` on completion and
`False` from the `except Exception` handler. -/
def send_email (msg : EmailInput) (tr : SmtpTransport) : Bool :=
  match smtpSession tr with
  | Except.ok _ => true
  | Except.error _ => false

/-! Helper lemmas: `List.min?` on integers. -/

theorem foldl_min_le_init (l : List Int) (a : Int) : l.foldl min a ≤ a := by
  induction l generalizing a with
  | nil => simp
  | cons x xs ih => exact le_trans (ih (min a x)) (min_le_left a x)

theorem foldl_min_le_mem {l : List Int} {b : Int} (a : Int) (hb : b ∈ l) :
    l.foldl min a ≤ b := by
  induction l generalizing a with
  | nil => cases hb
  | cons x xs ih =>
    rcases List.mem_cons.mp hb with h | h
    · subst h
      exact le_trans (foldl_min_le_init xs (min a b)) (min_le_right a b)
    · exact ih (min a x) h

theorem min?_le_of_mem {l : List Int} {a b : Int} (h : l.min? = some a)
    (hb : b ∈ l) : a ≤ b := by
  cases l with
  | nil => simp [List.min?] at h
  | cons x xs =>
    have h' : xs.foldl min x = a := by simpa [List.min?] using h
    subst h'
    rcases List.mem_cons.mp hb with hbx | hbx
    · subst hbx; exact foldl_min_le_init xs b
    · exact foldl_min_le_mem x hbx

theorem min?_isSome {l : List Int} (h : l ≠ []) : (l.min?).isSome := by
  cases l with
  | nil => exact absurd rfl h
  | cons x xs => simp [List.min?]

/-- With the fixed non-empty `SCHEDULE_TIMES`, `get_next_schedule_time`
always succeeds and returns `nextTarget`. -/
theorem get_next_eq_nextTarget (now : Int) (js : Nat → Int) (rj : Int) :
    get_next_schedule_time now SCHEDULE_TIMES js rj = some (nextTarget now js rj) := by
  unfold nextTarget get_next_schedule_time
  cases h : (futureTimes now SCHEDULE_TIMES js).min? with
  | some m => simp
  | none => simp [SCHEDULE_TIMES]

/-! Claim theorems. -/

/-- C5: whenever at least one of today's jittered instants lies strictly
after `now`, `get_next_schedule_time` returns the minimum of those future
instants (ties broken by minimum value); and concretely, with base times
`[(9,30),(14,0)]`, jitter draws `0`, `now = 10:00` of day 0 (`36000`), it
returns exactly day 0's `14:00:00` (`50400`). -/
theorem C5_future_min :
    (∀ (now : Int) (sched : List (Int × Int)) (js : Nat → Int) (rj : Int),
      futureTimes now sched js ≠ [] →
      ∃ r, get_next_schedule_time now sched js rj = some r ∧
        r ∈ futureTimes now sched js ∧
        ∀ t ∈ futureTimes now sched js, r ≤ t) ∧
    get_next_schedule_time 36000 [(9, 30), (14, 0)] (fun _ => 0) 0 = some 50400 := by
  constructor
  · intro now sched js rj hne
    obtain ⟨r, hr⟩ := Option.isSome_iff_exists.mp (min?_isSome hne)
    refine ⟨r, ?_, ?_, ?_⟩
    · unfold get_next_schedule_time
      rw [hr]
    · exact List.min?_mem (fun a b => min_choice a b) hr
    · intro t ht
      exact min?_le_of_mem hr ht
  · decide

/-- C5 witness: the general statement of `C5_future_min` instantiated at
`now = 36000`, base times `[(9,30),(14,0)]`, zero jitter. -/
theorem C5_future_min_witness :
    ∃ r, get_next_schedule_time 36000 [(9, 30), (14, 0)] (fun _ => 0) 0 = some r ∧
      r ∈ futureTimes 36000 [(9, 30), (14, 0)] (fun _ => 0) ∧
      ∀ t ∈ futureTimes 36000 [(9, 30), (14, 0)] (fun _ => 0), r ≤ t :=
  C5_future_min.1 36000 [(9, 30), (14, 0)] (fun _ => 0) 0 (by decide)

/-- C6: when none of today's jittered instants lies strictly after `now`,
`get_next_schedule_time` returns tomorrow's instant built from the
schedule's *first* base time plus the fresh rollover jitter (later base
times are not considered); and concretely with base times `[(9,30)]`,
jitter draws `0`, `now = 23:00` of day 0 (`82800`), it returns exactly
day 1's `09:30:00` (`120600`). -/
theorem C6_rollover_first_base :
    (∀ (now h0 m0 : Int) (rest : List (Int × Int)) (js : Nat → Int) (rj : Int),
      futureTimes now ((h0, m0) :: rest) js = [] →
      get_next_schedule_time now ((h0, m0) :: rest) js rj
        = some (combine (dateOf now + 1) h0 m0 + rj)) ∧
    get_next_schedule_time 82800 [(9, 30)] (fun _ => 0) 0 = some 120600 := by
  constructor
  · intro now h0 m0 rest js rj hE
    unfold get_next_schedule_time
    rw [hE]
    rfl
  · decide

/-- C6 witness: the general statement of `C6_rollover_first_base`
instantiated at `now = 82800` with the one-element schedule `[(9,30)]`. -/
theorem C6_rollover_first_base_witness :
    get_next_schedule_time 82800 [(9, 30)] (fun _ => 0) 0
      = some (combine (dateOf 82800 + 1) 9 30 + 0) :=
  C6_rollover_first_base.1 82800 9 30 [] (fun _ => 0) 0 (by decide)

/-- C1 counterexample: with the valid base schedule `[(0, 0)]`, the
non-negative jitter bound `120` minutes, `now = 23:59:59` of day 0
(`86399`), today's jitter draw `0` (within the bound) and rollover jitter
draw `-7200` (within the bound), the rollover branch is taken and
`get_next_schedule_time` returns `79200` — day 0's `22:00:00`, which is
neither strictly after `now` nor on the calendar date following `now`'s
date. -/
theorem C1_counterexample :
    ValidTime 0 0 ∧
    (0 : Int) ≤ 120 ∧
    (-(120 * 60) ≤ (0 : Int) ∧ (0 : Int) ≤ 120 * 60) ∧
    (-(120 * 60) ≤ (-7200 : Int) ∧ (-7200 : Int) ≤ 120 * 60) ∧
    futureTimes 86399 [(0, 0)] (fun _ => 0) = [] ∧
    get_next_schedule_time 86399 [(0, 0)] (fun _ => 0) (-7200) = some 79200 ∧
    ¬ ((86399 : Int) < 79200 ∨ dateOf 79200 = dateOf 86399 + 1) := by
  decide

/-- C1 (amended): for every base schedule, oracle jitter draws and `now`,
if `get_next_schedule_time` succeeds then — provided the realized rollover
jitter keeps the schedule's first base time inside its calendar day
(`0 ≤ h0 * 3600 + m0 * 60 + rj < 86400`, which holds for the configured
first base time `09:30` with the configured `15`-minute bound) — the result
is strictly after `now`, and in the rollover branch (no jittered
today-instant after `now`) it lies on the calendar date following `now`'s
date.  Without that proviso the claim fails (`C1_counterexample`). -/
theorem C1_strictly_after (now : Int) (sched : List (Int × Int))
    (js : Nat → Int) (rj : Int) (r : Int)
    (hr : get_next_schedule_time now sched js rj = some r)
    (hroll : ∀ h0 m0 rest, sched = (h0, m0) :: rest →
      0 ≤ h0 * 3600 + m0 * 60 + rj ∧ h0 * 3600 + m0 * 60 + rj < 86400) :
    now < r ∧ (futureTimes now sched js = [] → dateOf r = dateOf now + 1) := by
  unfold get_next_schedule_time at hr
  cases hmin : (futureTimes now sched js).min? with
  | some m =>
    rw [hmin] at hr
    have hm : m = r := by injection hr
    subst hm
    have hmem := List.min?_mem (fun a b => min_choice a b) hmin
    have hfut : now < m := by
      have := (List.mem_filter.mp hmem).2
      simpa using this
    refine ⟨hfut, ?_⟩
    intro hE
    rw [hE] at hmin
    simp [List.min?] at hmin
  | none =>
    rw [hmin] at hr
    cases sched with
    | nil => cases hr
    | cons p rest =>
      obtain ⟨h0, m0⟩ := p
      have hres : combine (dateOf now + 1) h0 m0 + rj = r := by
        injection hr
      obtain ⟨hlo, hhi⟩ := hroll h0 m0 rest rfl
      subst hres
      constructor
      · unfold combine dateOf
        omega
      · intro _
        unfold combine dateOf
        omega

/-- C1 witness: `C1_strictly_after` applied at `now = 08:00` of day 0
(`28800`) with schedule `[(9,30)]`, zero jitter draws, result `34200`. -/
theorem C1_strictly_after_witness :
    (28800 : Int) < 34200 ∧
      (futureTimes 28800 [(9, 30)] (fun _ => 0) = [] →
        dateOf 34200 = dateOf 28800 + 1) :=
  C1_strictly_after 28800 [(9, 30)] (fun _ => 0) 0 34200 (by decide)
    (fun h0 m0 rest h => by
      have h1 : ((9 : Int), (30 : Int)) = (h0, m0) ∧ ([] : List (Int × Int)) = rest := by
        injection h with ha hb
        exact ⟨ha, hb⟩
      obtain ⟨ha, hb⟩ := h1
      have hh : h0 = 9 ∧ m0 = 30 := by
        have := congrArg Prod.fst ha
        have := congrArg Prod.snd ha
        constructor <;> omega
      obtain ⟨hh0, hm0⟩ := hh
      subst hh0
      subst hm0
      exact ⟨by decide, by decide⟩)

/-- C2 counterexample: two fire attempts for the nominal slot `(9, 30)` on
day 0, with realized jitters `+60` and `-60` seconds — both within the
configured `15`-minute bound — map to different `schedule_key`s: the
negative jitter crosses the half-hour bucket boundary. -/
theorem C2_counterexample :
    (-900 : Int) ≤ 60 ∧ (60 : Int) ≤ 900 ∧
    (-900 : Int) ≤ -60 ∧ (-60 : Int) ≤ 900 ∧
    (9, 30) ∈ SCHEDULE_TIMES ∧
    schedule_key (combine 0 9 30 + 60) = (0, 9, 1) ∧
    schedule_key (combine 0 9 30 + (-60)) = (0, 9, 0) ∧
    schedule_key (combine 0 9 30 + 60) ≠ schedule_key (combine 0 9 30 + (-60)) := by
  decide

/-- C2 (amended): for a nominal base time `(h, m)` whose minute lies on a
half-hour bucket boundary (`m % 30 = 0`, as all configured base times do),
two fire attempts on the same date map to the same `schedule_key` provided
both realized jitters lie in `[0, 900]` seconds.  For signed jitters up to
the configured `±15`-minute bound the claim fails: a negative jitter moves
the instant into the previous bucket (`C2_counterexample`), the latent gap
the spec's §9 records. -/
theorem C2_same_key_of_same_bucket (d h m j1 j2 : Int) (hv : ValidTime h m)
    (hm : m % 30 = 0) (hj1 : 0 ≤ j1 ∧ j1 ≤ 900) (hj2 : 0 ≤ j2 ∧ j2 ≤ 900) :
    schedule_key (combine d h m + j1) = schedule_key (combine d h m + j2) := by
  obtain ⟨hh0, hh1, hm0, hm1⟩ := hv
  unfold schedule_key dateOf hourOf minuteOf combine
  simp only [Prod.mk.injEq]
  omega

/-- C2 witness: `C2_same_key_of_same_bucket` at the configured base time
`(9, 30)` on day 0 with jitters `0` and `900` seconds. -/
theorem C2_same_key_of_same_bucket_witness :
    schedule_key (combine 0 9 30 + 0) = schedule_key (combine 0 9 30 + 900) :=
  C2_same_key_of_same_bucket 0 9 30 0 900 (by decide) (by decide)
    (by decide) (by decide)

/-- C3: the code violates the claim.  Starting from a fresh state on day 0,
the iteration at `23:00` computes day 1's `09:30` slot (rollover branch,
key `(1, 9, 1)`) and dispatches, but `current_day` still holds day 0; the
next iteration, at `09:30:30` of day 1 with jitter draw `+120` seconds,
computes target `09:32` of day 1 — the *same* key `(1, 9, 1)` — yet the
new-day check first clears `today_executed`, so the loop dispatches the
child a second time instead of skipping.  This contradicts the docstring of
`get_next_schedule_time` (each base time runs once per day) and the spec;
both consecutive attempts launch the child. -/
theorem C3_double_dispatch_same_key :
    schedule_key (nextTarget iterNextMorning.now iterNextMorning.jitters
        iterNextMorning.rolloverJitter)
      = schedule_key (nextTarget iterEvening.now iterEvening.jitters
        iterEvening.rolloverJitter) ∧
    (loopIter startState iterEvening).dispatched = some 0 ∧
    (loopIter (loopIter startState iterEvening).state iterNextMorning).dispatched
      = some 0 ∧
    Ev.dispatch (1, 9, 1) 0 ∈ (loopIter startState iterEvening).events ∧
    Ev.dispatch (1, 9, 1) 0
      ∈ (loopIter (loopIter startState iterEvening).state iterNextMorning).events := by
  decide

/-- C4: at any loop iteration whose observed date differs from
`current_day`, the executed-slots set is cleared in full — immediately
after the rollover is observed the set is empty whatever was recorded
before — `current_day` becomes the observed date, and that iteration's
dedup check can only pass (it always dispatches). -/
theorem C4_rollover_clears (st : LoopState) (i : IterIn)
    (h : dateOf i.now ≠ st.current_day) :
    (resetIfNewDay st (dateOf i.now)).today_executed = [] ∧
    (resetIfNewDay st (dateOf i.now)).current_day = dateOf i.now ∧
    (loopIter st i).dispatched.isSome := by
  have hreset : resetIfNewDay st (dateOf i.now)
      = { today_executed := [], current_day := dateOf i.now } := by
    unfold resetIfNewDay
    simp [h]
  refine ⟨by rw [hreset], by rw [hreset], ?_⟩
  unfold loopIter
  rw [hreset]
  simp

/-- C4 witness: `C4_rollover_clears` applied to a state holding a recorded
key from day 0 and an iteration observing day 1. -/
theorem C4_rollover_clears_witness :
    (resetIfNewDay { today_executed := [(0, 9, 1)], current_day := 0 }
        (dateOf iterNextMorning.now)).today_executed = [] ∧
    (resetIfNewDay { today_executed := [(0, 9, 1)], current_day := 0 }
        (dateOf iterNextMorning.now)).current_day = dateOf iterNextMorning.now ∧
    (loopIter { today_executed := [(0, 9, 1)], current_day := 0 }
        iterNextMorning).dispatched.isSome :=
  C4_rollover_clears { today_executed := [(0, 9, 1)], current_day := 0 }
    iterNextMorning (by decide)

/-- C7: `run_deli_signup` never propagates a fault: when the launch raises
it returns the sentinel `-1` after logging the failure, and when the child
completes it returns the child's actual return code.  (Totality of the Lean
function over every oracle outcome is the no-uncaught-fault guarantee.) -/
theorem C7_run_never_raises (script_path : String) (o : Except String ChildProc) :
    (∀ e, o = Except.error e →
      (run_deli_signup script_path o).1 = -1 ∧
        LogRec.exception ("launch failed " ++ e)
          ∈ (run_deli_signup script_path o).2) ∧
    ∀ p, o = Except.ok p → (run_deli_signup script_path o).1 = p.returncode := by
  constructor
  · intro e he
    subst he
    simp [run_deli_signup]
  · intro p hp
    subst hp
    simp [run_deli_signup]

/-- C7 witness: a missing executable yields the sentinel `-1` and an
exception log record. -/
theorem C7_run_never_raises_witness :
    (run_deli_signup "deliSignup.py" (Except.error "no such file")).1 = -1 ∧
      LogRec.exception ("launch failed " ++ "no such file")
        ∈ (run_deli_signup "deliSignup.py" (Except.error "no such file")).2 :=
  (C7_run_never_raises "deliSignup.py" (Except.error "no such file")).1
    "no such file" rfl

/-- C8: in either mode, when the target executable is missing `main`
returns exit status `2` without entering the scheduling loop: the event
trace is empty, so no next-fire-time computation, wait, skip or dispatch
occurs. -/
theorem C8_missing_executable_exits_2 (once : Bool) (startDay : Int)
    (iters : List IterIn) :
    (mainModel false once startDay iters).1 = some 2 ∧
    (mainModel false once startDay iters).2.1 = [] :=
  ⟨rfl, rfl⟩

/-- Helper: sequencing of unit-valued `Except` computations succeeds iff
both halves do. -/
theorem bind_ok_unit_iff (x : Except String Unit) (f : Unit → Except String Unit) :
    x.bind f = Except.ok () ↔ x = Except.ok () ∧ f () = Except.ok () := by
  cases x with
  | error e => simp [Except.bind]
  | ok u =>
    cases u
    simp [Except.bind]

/-- C9: `send_email` always returns a boolean and never propagates an
exception: it returns `true` exactly when all five SMTP interactions
(connect, `starttls`, `login`, `sendmail`, `quit`) complete, and `false`
exactly when any of them fails. -/
theorem C9_send_email_boolean (msg : EmailInput) (tr : SmtpTransport) :
    (send_email msg tr = true ↔
      tr.connect = Except.ok () ∧ tr.starttls = Except.ok () ∧
      tr.login = Except.ok () ∧ tr.sendmail = Except.ok () ∧
      tr.quit = Except.ok ()) ∧
    (send_email msg tr = false ↔
      ¬ (tr.connect = Except.ok () ∧ tr.starttls = Except.ok () ∧
        tr.login = Except.ok () ∧ tr.sendmail = Except.ok () ∧
        tr.quit = Except.ok ())) := by
  have hsession : smtpSession tr = Except.ok () ↔
      tr.connect = Except.ok () ∧ tr.starttls = Except.ok () ∧
      tr.login = Except.ok () ∧ tr.sendmail = Except.ok () ∧
      tr.quit = Except.ok () := by
    simp only [smtpSession, bind_ok_unit_iff]
  have htrue : send_email msg tr = true ↔ smtpSession tr = Except.ok () := by
    unfold send_email
    cases hs : smtpSession tr with
    | ok u =>
      cases u
      simp
    | error e => simp
  constructor
  · rw [htrue, hsession]
  · rw [← hsession]
    cases hs : smtpSession tr with
    | ok u =>
      cases u
      simp [send_email, hs]
    | error e => simp [send_email, hs]

/-- Helper: the new-day check is a no-op when the observed date matches. -/
theorem resetIfNewDay_same (st : LoopState) {d : Int} (h : d = st.current_day) :
    resetIfNewDay st d = st := by
  unfold resetIfNewDay
  simp [h]

/-- Helper: an iteration observing the recorded day keeps every recorded
key, keeps `current_day`, and never dispatches a recorded key. -/
theorem loopIter_keeps_executed (st : LoopState) (i : IterIn)
    (k : Int × Int × Int) (hk : k ∈ st.today_executed)
    (hday : dateOf i.now = st.current_day) :
    k ∈ (loopIter st i).state.today_executed ∧
    (loopIter st i).state.current_day = st.current_day ∧
    ∀ ev ∈ (loopIter st i).events, ∀ rc, ev ≠ Ev.dispatch k rc := by
  unfold loopIter
  rw [resetIfNewDay_same st hday]
  by_cases hmem : schedule_key (nextTarget i.now i.jitters i.rolloverJitter)
      ∈ st.today_executed
  · rw [if_pos hmem]
    refine ⟨hk, rfl, ?_⟩
    intro ev hev rc
    simp only [List.mem_cons, List.not_mem_nil, or_false] at hev
    rcases hev with h | h | h <;> subst h <;> simp
  · rw [if_neg hmem]
    refine ⟨List.mem_cons_of_mem _ hk, rfl, ?_⟩
    intro ev hev rc
    have hne : schedule_key (nextTarget i.now i.jitters i.rolloverJitter) ≠ k :=
      fun hcontra => hmem (hcontra ▸ hk)
    simp only [List.mem_cons, List.not_mem_nil, or_false] at hev
    rcases hev with h | h | h <;> subst h
    · simp
    · simp
    · intro hcontra
      injection hcontra with hkey hrc
      exact hne hkey

/-- Helper: `runLoop` on the empty input list. -/
theorem runLoop_nil (st : LoopState) (once : Bool) :
    runLoop st once [] = (none, [], st) := rfl

/-- Helper: in daemon mode one iteration's events are prepended and the
loop continues from the successor state, dispatch or not. -/
theorem runLoop_cons_daemon (st : LoopState) (i : IterIn) (rest : List IterIn) :
    runLoop st false (i :: rest)
      = ((runLoop (loopIter st i).state false rest).1,
         (loopIter st i).events ++ (runLoop (loopIter st i).state false rest).2.1,
         (runLoop (loopIter st i).state false rest).2.2) := rfl

/-- Helper: a daemon-mode (`once = false`) run whose every iteration
observes the recorded day never dispatches a key already in the executed
set. -/
theorem runLoop_no_dispatch_of_executed (k : Int × Int × Int) :
    ∀ (iters : List IterIn) (st : LoopState),
      k ∈ st.today_executed →
      (∀ j ∈ iters, dateOf j.now = st.current_day) →
      ∀ ev ∈ (runLoop st false iters).2.1, ∀ rc, ev ≠ Ev.dispatch k rc := by
  intro iters
  induction iters with
  | nil =>
    intro st hk hday ev hev rc
    rw [runLoop_nil] at hev
    simp at hev
  | cons i rest ih =>
    intro st hk hday ev hev rc
    have hdayi : dateOf i.now = st.current_day := hday i (List.mem_cons_self i rest)
    obtain ⟨hk2, hcd, hnd⟩ := loopIter_keeps_executed st i k hk hdayi
    have hsplit : ev ∈ (loopIter st i).events ∨
        ev ∈ (runLoop (loopIter st i).state false rest).2.1 := by
      rw [runLoop_cons_daemon] at hev
      exact List.mem_append.mp hev
    rcases hsplit with hcase | hcase
    · exact hnd ev hcase rc
    · refine ih (loopIter st i).state hk2 ?_ ev hcase rc
      intro j hj
      rw [hcd]
      exact hday j (List.mem_cons_of_mem i hj)

/-- C10: after an iteration, the computed slot key is in the executed set
unconditionally — the marking happens whatever the child outcome was
(launch failure with sentinel `-1`, non-zero exit, or success) — and in any
continuation of the run whose iterations keep observing that same day, the
key's slot is never dispatched again. -/
theorem C10_slot_marked_unconditionally (st : LoopState) (i : IterIn)
    (k : Int × Int × Int)
    (hk : k = schedule_key (nextTarget i.now i.jitters i.rolloverJitter)) :
    k ∈ (loopIter st i).state.today_executed ∧
    ∀ iters, (∀ j ∈ iters, dateOf j.now = (loopIter st i).state.current_day) →
      ∀ ev ∈ (runLoop (loopIter st i).state false iters).2.1,
        ∀ rc, ev ≠ Ev.dispatch k rc := by
  have hkmem : k ∈ (loopIter st i).state.today_executed := by
    subst hk
    unfold loopIter
    by_cases hmem : schedule_key (nextTarget i.now i.jitters i.rolloverJitter)
        ∈ (resetIfNewDay st (dateOf i.now)).today_executed
    · rw [if_pos hmem]
      exact hmem
    · rw [if_neg hmem]
      exact List.mem_cons_self _ _
  exact ⟨hkmem, fun iters hday =>
    runLoop_no_dispatch_of_executed k iters _ hkmem hday⟩

/-- C10 witness: an iteration whose child fails to launch (sentinel `-1`)
still records its slot key `(0, 9, 1)`. -/
theorem C10_slot_marked_unconditionally_witness :
    ((0 : Int), (9 : Int), (1 : Int))
      ∈ (loopIter startState iterFailing).state.today_executed :=
  (C10_slot_marked_unconditionally startState iterFailing (0, 9, 1) (by decide)).1

end Deli
